import Mathlib

/-!
Shallow embedding of the user-account service in `src/main.py` and
`src/models.py`: the `users` table (SQLAlchemy model `User`), the
`signup`, `login` and `get_users` FastAPI handlers, and the password
hashing capability they consume.

Conventions of the embedding:
* The relational store is a `Store`: the list of persisted rows plus the
  next surrogate id the store will assign.  A commit is atomic — it
  either inserts the row or raises leaving the rows unchanged — which is
  how the transactional session of the source behaves.
* Python exceptions are the inductive `Exc`.  FastAPI's `HTTPException`
  subclasses `Exception`, so a `raise HTTPException(...)` inside the
  handlers' `try` blocks is caught by their `except Exception as e`
  clauses; the embedding encodes each handler body as an
  `Except Exc` computation and applies the `except` clause on top,
  exactly as the source's control flow does.
* `str(e)` for an `HTTPException` is `f"\x7bstatus_code\x7d: \x7bdetail\x7d"`
  (Starlette) and for a database error its message; `strOfExc` models it.
-/

/-- A row of the `users` table (`src/models.py`, class `User`):
`id` integer primary key, `username` unique non-null, `email` unique
non-null, `password` non-null (the stored digest). -/
structure UserRow where
  id : Nat
  username : String
  email : String
  password : String
deriving Repr, DecidableEq

/-- The relational store: persisted rows, in insertion order, and the
next surrogate key the store will assign. -/
structure Store where
  rows : List UserRow
  nextId : Nat
deriving Repr, DecidableEq

/-- The empty store, as produced by `create_tables` on a fresh database. -/
def emptyStore : Store := { rows := [], nextId := 1 }

/-- Modelled from the spec: `schemas.py` (imported by `src/main.py` line 14)
is not in the shown source; the spec gives the signup request body as
`\x7busername, email, password\x7d`. -/
structure UserCreate where
  username : String
  email : String
  password : String
deriving Repr, DecidableEq

/-- Modelled from the spec: `schemas.py` is not in the shown source; the
spec gives the success response body as `\x7bid, username, email\x7d` —
public fields only, no digest field exists in this shape. -/
structure UserResponse where
  id : Nat
  username : String
  email : String
deriving Repr, DecidableEq

/-- Modelled from the spec: the login request shape `(email, password)`;
the source's `UserLogin` annotation is never defined or imported
(spec §9, "Open question"). -/
structure UserLogin where
  email : String
  password : String
deriving Repr, DecidableEq

namespace bcrypt

/-- Modelled from the spec: the password-hashing capability
(`passlib.hash.bcrypt` is an external collaborator, spec §2): a one-way
`hash(plaintext) -> digest` whose round-trip contract is spec §8:
verifying with the same plaintext succeeds, with any different plaintext
fails.  The model realises it as an injective tagging of the plaintext. -/
def hash (p : String) : String := "bcrypt$" ++ p

/-- Modelled from the spec: `verify(plaintext, digest) -> bool` succeeds
exactly when the digest is the hash of the plaintext. -/
def verify (p d : String) : Bool := hash p == d

end bcrypt

/-- A Python exception, as raised inside the handlers: an
`HTTPException(status_code, detail)` or a storage-layer error. -/
inductive Exc where
  | http (status : Nat) (detail : String)
  | storage (msg : String)
deriving Repr, DecidableEq

/-- `str(e)`: Starlette's `HTTPException.__str__` yields
`"status: detail"`; a storage error stringifies to its message. -/
def strOfExc : Exc → String
  | .http s d => toString s ++ ": " ++ d
  | .storage m => m

/-- The `HTTPException` escaping a handler, as observed by the caller. -/
structure HTTPError where
  status : Nat
  detail : String
deriving Repr, DecidableEq

deriving instance DecidableEq for Except

/-- `db.execute(select(User).filter(User.email == e))` followed by
`.scalar_one_or_none()`: the first row with the given email, if any
(emails are unique, so at most one exists). -/
def selectByEmail (s : Store) (e : String) : Option UserRow :=
  s.rows.find? (fun u => u.email == e)

/-- `select(User)` with `.scalars().all()`: all rows. -/
def selectAll (s : Store) : List UserRow := s.rows

/-- `db.add(new_user)` + `await db.commit()`: the store enforces the
uniqueness constraints of `src/models.py` (`unique=True` on `email` and
`username`); a violating insert raises a storage error and leaves the
rows unchanged, otherwise the row is inserted with the store-assigned
fresh surrogate id. -/
def commitInsert (s : Store) (username email password : String) :
    Except Exc (UserRow × Store) :=
  if s.rows.any (fun u => u.email == email) then
    .error (.storage "IntegrityError: unique constraint failed: users.email")
  else if s.rows.any (fun u => u.username == username) then
    .error (.storage "IntegrityError: unique constraint failed: users.username")
  else
    let row : UserRow := { id := s.nextId, username := username,
                           email := email, password := password }
    .ok (row, { rows := s.rows ++ [row], nextId := s.nextId + 1 })

/-- The public projection applied by `response_model=UserResponse`:
only `id`, `username`, `email` are serialised. -/
def toResponse (u : UserRow) : UserResponse :=
  { id := u.id, username := u.username, email := u.email }

/-- The body of the `try` block of `signup` (`src/main.py` lines 77–102):
look up by email; if a row exists raise `HTTPException(400, "Email
already registered")`; otherwise hash the password, insert and commit,
and return the new row. -/
def signupBody (s : Store) (user : UserCreate) :
    Except Exc (UserRow × Store) :=
  match selectByEmail s user.email with
  | some _ => .error (.http 400 "Email already registered")
  | none =>
    let hashed := bcrypt.hash user.password
    commitInsert s user.username user.email hashed

/-- The full `signup` handler (`src/main.py` lines 74–107): the `try`
body, with its `except Exception as e` clause catching every exception —
including the handler's own `HTTPException` — rolling the session back
and raising `HTTPException(500, "Internal server error: " + str(e))`.
Returns the caller-visible outcome and the resulting store. -/
def signup (s : Store) (user : UserCreate) :
    Except HTTPError UserResponse × Store :=
  match signupBody s user with
  | .ok (row, s2) => (.ok (toResponse row), s2)
  | .error e => (.error ⟨500, "Internal server error: " ++ strOfExc e⟩, s)

/-- The body of the `try` block of `login` (`src/main.py` lines 123–146):
look up by email; if absent raise `HTTPException(400, "Invalid email or
password")`; if `bcrypt.verify` rejects, raise the same exception;
otherwise return the public fields. -/
def loginBody (s : Store) (r : UserLogin) : Except Exc UserResponse :=
  match selectByEmail s r.email with
  | none => .error (.http 400 "Invalid email or password")
  | some u =>
    if bcrypt.verify r.password u.password then
      .ok (toResponse u)
    else
      .error (.http 400 "Invalid email or password")

/-- The full `login` handler (`src/main.py` lines 121–150): the `try`
body with its `except Exception as e` clause raising
`HTTPException(500, "Internal server error: " + str(e))`.  `login`
executes only a `SELECT`, so the store is not threaded. -/
def login (s : Store) (r : UserLogin) : Except HTTPError UserResponse :=
  match loginBody s r with
  | .ok v => .ok v
  | .error e => .error ⟨500, "Internal server error: " ++ strOfExc e⟩

/-- The `get_users` handler (`src/main.py` lines 109–118): fetch all
rows; `response_model=List[UserResponse]` projects each to its public
fields.  The `SELECT` itself cannot fail in the store model, so the
success branch is taken. -/
def get_users (s : Store) : Except HTTPError (List UserResponse) :=
  .ok ((selectAll s).map toResponse)

/-! ## Concurrency model for racing signups

Each `signup` request performs two store round trips: the duplicate
pre-check (`SELECT` by email) and the insert-plus-commit.  The store
serialises commits.  A schedule fixes the interleaving of two requests:
`serial` runs the first request to completion before the second starts;
`interleaved` lets both pre-checks read the initial store before either
commit (the race the spec discusses). -/

/-- The commit phase of `signup`, run after a passed pre-check: the
insert and commit against the current store, with the handler's
`except Exception` clause wrapping a constraint violation as a 500. -/
def signupCommitPhase (s : Store) (r : UserCreate) :
    Except HTTPError UserResponse × Store :=
  match commitInsert s r.username r.email (bcrypt.hash r.password) with
  | .ok (row, s2) => (.ok (toResponse row), s2)
  | .error e => (.error ⟨500, "Internal server error: " ++ strOfExc e⟩, s)

/-- The caller-visible outcome of a signup whose pre-check found the
email: the handler's 400 swallowed by its own `except` clause. -/
def dupEmail500 : HTTPError :=
  ⟨500, "Internal server error: 400: Email already registered"⟩

/-- An interleaving of two signup requests. -/
inductive Schedule where
  | serial
  | interleaved
deriving Repr, DecidableEq

/-- Two signup requests under a schedule: the first request's outcome,
the second request's outcome, and the final store. -/
def raceSignup : Schedule → Store → UserCreate → UserCreate →
    Except HTTPError UserResponse × Except HTTPError UserResponse × Store
  | .serial, s, r1, r2 =>
    ((signup s r1).1, (signup (signup s r1).2 r2).1, (signup (signup s r1).2 r2).2)
  | .interleaved, s, r1, r2 =>
    match selectByEmail s r1.email, selectByEmail s r2.email with
    | some _, some _ => (.error dupEmail500, .error dupEmail500, s)
    | some _, none =>
      ((.error dupEmail500), (signupCommitPhase s r2).1, (signupCommitPhase s r2).2)
    | none, some _ =>
      ((signupCommitPhase s r1).1, .error dupEmail500, (signupCommitPhase s r1).2)
    | none, none =>
      ((signupCommitPhase s r1).1,
       (signupCommitPhase (signupCommitPhase s r1).2 r2).1,
       (signupCommitPhase (signupCommitPhase s r1).2 r2).2)

/-! ## Store invariant and sequences of operations -/

/-- The data-model invariant of spec §3: pairwise distinct emails,
pairwise distinct usernames, and no empty stored digest. -/
def StoreInv (s : Store) : Prop :=
  s.rows.Pairwise (fun a b => a.email ≠ b.email) ∧
  s.rows.Pairwise (fun a b => a.username ≠ b.username) ∧
  ∀ r ∈ s.rows, r.password ≠ ""

/-- One exposed operation of the service. -/
inductive Op where
  | signupOp (u : UserCreate)
  | loginOp (r : UserLogin)
  | listOp
deriving Repr

/-- The store after one exposed operation.  `login` and `get_users`
execute only `SELECT`s (`src/main.py` lines 113 and 127), so they leave
the store unchanged. -/
def applyOp (s : Store) : Op → Store
  | .signupOp u => (signup s u).2
  | .loginOp _ => s
  | .listOp => s

/-- The store reached from a fresh database by a sequence of exposed
operations. -/
def reachFrom (ops : List Op) : Store := ops.foldl applyOp emptyStore

/-- A sequence of signups, threading the store and collecting each
request's outcome in order. -/
def runSignups : Store → List UserCreate → Store × List (Except HTTPError UserResponse)
  | s, [] => (s, [])
  | s, r :: rs =>
    ((runSignups (signup s r).2 rs).1,
     (signup s r).1 :: (runSignups (signup s r).2 rs).2)

/-! ## Name resolution in the source module

`src/main.py` evaluates its handler definitions at import time; an
annotation naming an unbound identifier raises a `NameError` when the
`def` statement is evaluated.  `moduleBoundNames` lists every name bound
at the top level of the shown source (the imports of `src/main.py`
lines 1–15 and `src/models.py` lines 1–2, and every top-level
assignment, `def` and `class` of both files). -/
def moduleBoundNames : List String :=
  ["os", "logging", "load_dotenv", "create_async_engine", "AsyncSession",
   "sessionmaker", "declarative_base", "FastAPI", "Depends", "HTTPException",
   "APIRouter", "CORSMiddleware", "select", "bcrypt", "asyncio",
   "Base", "User", "UserCreate", "UserResponse", "List",
   "logger", "DATABASE_URL", "engine", "SessionLocal", "app", "router",
   "get_db", "create_tables", "signup", "get_users", "login",
   "startup_event", "include_users_router",
   "Column", "Integer", "String"]

/-- The identifier used as the type of the `login` handler's
request-body parameter (`src/main.py` line 122). -/
def loginRequestTypeName : String := "UserLogin"

/-! ## Concrete sample data -/

/-- The stored row produced by the spec §8 example signup. -/
def aliceRow : UserRow := ⟨1, "alice", "alice@x.com", bcrypt.hash "pw123"⟩

/-- A store holding exactly the example row. -/
def storeAlice : Store := { rows := [aliceRow], nextId := 2 }

/-- A second stored row, from a signup after the example one. -/
def bobRow : UserRow := ⟨2, "bob", "bob@x.com", bcrypt.hash "pw456"⟩

/-! ## Helper lemmas -/

namespace bcrypt

theorem hash_injective {p q : String} (h : hash p = hash q) : p = q := by
  have h2 := congrArg String.data h
  simp only [hash, String.data_append] at h2
  exact String.ext (List.append_cancel_left h2)

theorem hash_ne_empty (p : String) : hash p ≠ "" := by
  intro h
  have h2 := congrArg String.length h
  rw [hash, String.length_append] at h2
  have h7 : ("bcrypt$" : String).length = 7 := rfl
  have h0 : ("" : String).length = 0 := rfl
  omega

end bcrypt

theorem selectByEmail_eq_none_iff (s : Store) (e : String) :
    selectByEmail s e = none ↔ ∀ r ∈ s.rows, r.email ≠ e := by
  simp [selectByEmail, List.find?_eq_none]

/-- The sequential `signup` handler, characterised by the state of the
store: duplicate email → the handler's own 400 swallowed by the
`except` clause and re-raised as 500; fresh email but duplicate
username → the pre-check passes and the commit fails on the
storage-layer constraint, again surfaced as 500; otherwise success. -/
theorem signup_eq (s : Store) (u : UserCreate) :
    signup s u =
      if ∃ r ∈ s.rows, r.email = u.email then
        (.error ⟨500, "Internal server error: 400: Email already registered"⟩, s)
      else if ∃ r ∈ s.rows, r.username = u.username then
        (.error ⟨500,
          "Internal server error: IntegrityError: unique constraint failed: users.username"⟩, s)
      else
        (.ok ⟨s.nextId, u.username, u.email⟩,
         { rows := s.rows ++
             [⟨s.nextId, u.username, u.email, bcrypt.hash u.password⟩],
           nextId := s.nextId + 1 }) := by
  unfold signup signupBody commitInsert
  rcases hfind : selectByEmail s u.email with - | w
  · have hnotex : ¬ ∃ r ∈ s.rows, r.email = u.email := by
      rw [selectByEmail_eq_none_iff] at hfind
      rintro ⟨r, hr, he⟩
      exact hfind r hr he
    rw [if_neg hnotex]
    have hany : s.rows.any (fun r => r.email == u.email) = false := by
      rw [List.any_eq_false]
      intro r hr
      simpa using fun he => hnotex ⟨r, hr, he⟩
    rw [hany]
    by_cases huser : ∃ r ∈ s.rows, r.username = u.username
    · rw [if_pos huser]
      obtain ⟨r, hr, hu⟩ := huser
      have hanyu : s.rows.any (fun r => r.username == u.username) = true := by
        rw [List.any_eq_true]
        exact ⟨r, hr, by simp [hu]⟩
      rw [hanyu]
      rfl
    · rw [if_neg huser]
      have hanyu : s.rows.any (fun r => r.username == u.username) = false := by
        rw [List.any_eq_false]
        intro r hr
        simpa using fun hu => huser ⟨r, hr, hu⟩
      rw [hanyu]
      rfl
  · have hex : ∃ r ∈ s.rows, r.email = u.email := by
      refine ⟨w, List.mem_of_find?_eq_some hfind, ?_⟩
      simpa using List.find?_some hfind
    rw [if_pos hex]
    rfl

/-! ## Claim theorems -/

/-- C1: signup with an already-registered email does not reach the
caller as the 400 duplicate-email response the spec states: the
handler's own `HTTPException(400, "Email already registered")` is
caught by its blanket `except Exception` clause and re-raised as a 500
whose detail wraps the original message.  Evaluated at the spec §8
example: the store holds alice's row, and a signup reusing her email
under a different username yields the 500, with the store unchanged. -/
theorem C1_signup_duplicate_email_yields_500 :
    signup storeAlice ⟨"bob", "alice@x.com", "pw456"⟩ =
      (Except.error ⟨500, "Internal server error: 400: Email already registered"⟩,
       storeAlice) ∧
    (signup storeAlice ⟨"bob", "alice@x.com", "pw456"⟩).1 ≠
      Except.error ⟨400, "Email already registered"⟩ := by
  constructor
  · rfl
  · decide

/-- C2: a login whose email matches no row and a login whose email
matches a row but whose password fails verification raise the very same
exception — `HTTPException(400, "Invalid email or password")` — inside
the handler body, and the two caller-visible outcomes of the full
handler are identical, so the two failure causes are indistinguishable
to the caller. -/
theorem C2_login_failures_indistinguishable (s1 : Store) (r1 : UserLogin)
    (s2 : Store) (r2 : UserLogin) (u : UserRow)
    (h1 : selectByEmail s1 r1.email = none)
    (h2 : selectByEmail s2 r2.email = some u)
    (h3 : bcrypt.verify r2.password u.password = false) :
    loginBody s1 r1 = Except.error (.http 400 "Invalid email or password") ∧
    loginBody s2 r2 = Except.error (.http 400 "Invalid email or password") ∧
    login s1 r1 = login s2 r2 := by
  have b1 : loginBody s1 r1 = Except.error (.http 400 "Invalid email or password") := by
    unfold loginBody
    rw [h1]
  have b2 : loginBody s2 r2 = Except.error (.http 400 "Invalid email or password") := by
    unfold loginBody
    rw [h2]
    simp [h3]
  refine ⟨b1, b2, ?_⟩
  unfold login
  rw [b1, b2]

/-- Witness for C2: an unknown email against the empty store versus a
wrong password against alice's stored row. -/
theorem C2_witness :
    loginBody emptyStore ⟨"ghost@x.com", "pw"⟩ =
      Except.error (.http 400 "Invalid email or password") ∧
    loginBody storeAlice ⟨"alice@x.com", "wrongpw"⟩ =
      Except.error (.http 400 "Invalid email or password") ∧
    login emptyStore ⟨"ghost@x.com", "pw"⟩ =
      login storeAlice ⟨"alice@x.com", "wrongpw"⟩ :=
  C2_login_failures_indistinguishable emptyStore ⟨"ghost@x.com", "pw"⟩
    storeAlice ⟨"alice@x.com", "wrongpw"⟩ aliceRow rfl rfl (by decide)

/-- C4: a signup whose caller-visible outcome is an error leaves the
store exactly as it was — the duplicate pre-check fails before any
insert, and a constraint violation at commit is rolled back, so no
partial row survives. -/
theorem C4_failed_signup_leaves_store_unchanged (s : Store) (u : UserCreate)
    (e : HTTPError) (s2 : Store)
    (h : signup s u = (Except.error e, s2)) : s2 = s := by
  rw [signup_eq] at h
  by_cases h1 : ∃ r ∈ s.rows, r.email = u.email
  · rw [if_pos h1] at h
    exact (congrArg Prod.snd h).symm
  · rw [if_neg h1] at h
    by_cases h2 : ∃ r ∈ s.rows, r.username = u.username
    · rw [if_pos h2] at h
      exact (congrArg Prod.snd h).symm
    · rw [if_neg h2] at h
      exact absurd (congrArg Prod.fst h) (by simp)

/-- Witness for C4: the duplicate-email signup against alice's store
fails and returns the store it was given. -/
theorem C4_witness :
    signup storeAlice ⟨"bob", "alice@x.com", "pw456"⟩ =
      (Except.error dupEmail500, storeAlice) ∧
    storeAlice = storeAlice :=
  ⟨rfl, C4_failed_signup_leaves_store_unchanged storeAlice
    ⟨"bob", "alice@x.com", "pw456"⟩ dupEmail500 storeAlice rfl⟩

/-- C5: the hash/verify round-trip of the password-hashing capability:
verifying a digest with the plaintext it was hashed from succeeds, and
verifying it with any different plaintext fails. -/
theorem C5_hash_verify_roundtrip (p q : String) (hne : q ≠ p) :
    bcrypt.verify p (bcrypt.hash p) = true ∧
    bcrypt.verify q (bcrypt.hash p) = false := by
  constructor
  · simp [bcrypt.verify]
  · rw [bcrypt.verify]
    simp only [beq_eq_false_iff_ne, ne_eq]
    intro h
    exact hne (bcrypt.hash_injective h)

/-- Witness for C5: the spec §8 example password and a wrong guess. -/
theorem C5_witness :
    bcrypt.verify "pw123" (bcrypt.hash "pw123") = true ∧
    bcrypt.verify "wrongpw" (bcrypt.hash "pw123") = false :=
  C5_hash_verify_roundtrip "pw123" "wrongpw" (by decide)

/-- C9: the identifier `UserLogin`, used as the type of the `login`
handler's request-body parameter, is bound by no import and no
top-level definition of the shown source, so evaluating the module
cannot resolve the login handler's parameter type. -/
theorem C9_login_request_type_unbound :
    loginRequestTypeName ∉ moduleBoundNames := by decide

/-- C10: a signup whose username is already stored but whose email is
fresh passes the email-only pre-check, fails at commit on the
storage-layer username uniqueness constraint, and surfaces to the
caller as the generic 500 server error with the store unchanged — not
as the 400 duplicate-email response. -/
theorem C10_username_conflict_yields_500 (s : Store) (u : UserCreate)
    (hemail : ∀ r ∈ s.rows, r.email ≠ u.email)
    (husername : ∃ r ∈ s.rows, r.username = u.username) :
    selectByEmail s u.email = none ∧
    signup s u = (Except.error ⟨500,
      "Internal server error: IntegrityError: unique constraint failed: users.username"⟩,
      s) := by
  refine ⟨(selectByEmail_eq_none_iff s u.email).mpr hemail, ?_⟩
  rw [signup_eq, if_neg (fun ⟨r, hr, he⟩ => hemail r hr he), if_pos husername]

/-- Witness for C10: reusing the username `alice` with a fresh email
against alice's store. -/
theorem C10_witness :
    selectByEmail storeAlice "new@x.com" = none ∧
    signup storeAlice ⟨"alice", "new@x.com", "pw9"⟩ =
      (Except.error ⟨500,
        "Internal server error: IntegrityError: unique constraint failed: users.username"⟩,
       storeAlice) :=
  C10_username_conflict_yields_500 storeAlice ⟨"alice", "new@x.com", "pw9"⟩
    (by decide) ⟨aliceRow, by decide, by decide⟩

/-- C3: a signup whose caller-visible outcome is a success appended
exactly one new row — carrying the hash of the submitted password and
the store-assigned id, which is fresh in any store whose ids are bounded
by its id counter — and the response carries exactly the public fields
id, username and email (the `UserResponse` shape has no digest field). -/
theorem C3_signup_success_shape (s : Store) (u : UserCreate)
    (resp : UserResponse) (s2 : Store)
    (hid : ∀ r ∈ s.rows, r.id < s.nextId)
    (h : signup s u = (Except.ok resp, s2)) :
    s2.rows = s.rows ++ [⟨s.nextId, u.username, u.email, bcrypt.hash u.password⟩] ∧
    s2.nextId = s.nextId + 1 ∧
    resp = ⟨s.nextId, u.username, u.email⟩ ∧
    ∀ r ∈ s.rows, r.id ≠ s.nextId := by
  rw [signup_eq] at h
  by_cases h1 : ∃ r ∈ s.rows, r.email = u.email
  · rw [if_pos h1] at h
    exact absurd (congrArg Prod.fst h) (by simp)
  · rw [if_neg h1] at h
    by_cases h2 : ∃ r ∈ s.rows, r.username = u.username
    · rw [if_pos h2] at h
      exact absurd (congrArg Prod.fst h) (by simp)
    · rw [if_neg h2] at h
      simp only [Prod.mk.injEq, Except.ok.injEq] at h
      obtain ⟨hresp, hs2⟩ := h
      subst hs2
      exact ⟨rfl, rfl, hresp.symm, fun r hr => Nat.ne_of_lt (hid r hr)⟩

/-- Witness for C3: the spec §8 example signup against the fresh store. -/
theorem C3_witness :
    storeAlice.rows =
      emptyStore.rows ++ [⟨emptyStore.nextId, "alice", "alice@x.com", bcrypt.hash "pw123"⟩] ∧
    storeAlice.nextId = emptyStore.nextId + 1 ∧
    (⟨emptyStore.nextId, "alice", "alice@x.com"⟩ : UserResponse) =
      ⟨emptyStore.nextId, "alice", "alice@x.com"⟩ ∧
    ∀ r ∈ emptyStore.rows, r.id ≠ emptyStore.nextId :=
  C3_signup_success_shape emptyStore ⟨"alice", "alice@x.com", "pw123"⟩
    ⟨emptyStore.nextId, "alice", "alice@x.com"⟩ storeAlice
    (by simp [emptyStore]) rfl

/-- One exposed operation preserves the data-model invariant and only
ever appends rows: `login` and `get_users` execute no write, and
`signup` either changes nothing (on failure) or appends one row that
conflicts with no stored email or username and carries a non-empty
digest. -/
theorem applyOp_preserves (s : Store) (o : Op) (h : StoreInv s) :
    StoreInv (applyOp s o) ∧ ∃ t, (applyOp s o).rows = s.rows ++ t := by
  obtain ⟨hmail, huser, hpw⟩ := h
  cases o with
  | loginOp r => exact ⟨⟨hmail, huser, hpw⟩, [], by simp [applyOp]⟩
  | listOp => exact ⟨⟨hmail, huser, hpw⟩, [], by simp [applyOp]⟩
  | signupOp u =>
    show StoreInv (signup s u).2 ∧ ∃ t, (signup s u).2.rows = s.rows ++ t
    rw [signup_eq]
    by_cases h1 : ∃ r ∈ s.rows, r.email = u.email
    · rw [if_pos h1]
      exact ⟨⟨hmail, huser, hpw⟩, [], by simp⟩
    · rw [if_neg h1]
      by_cases h2 : ∃ r ∈ s.rows, r.username = u.username
      · rw [if_pos h2]
        exact ⟨⟨hmail, huser, hpw⟩, [], by simp⟩
      · rw [if_neg h2]
        push_neg at h1 h2
        refine ⟨⟨?_, ?_, ?_⟩, [⟨s.nextId, u.username, u.email, bcrypt.hash u.password⟩], rfl⟩
        · rw [List.pairwise_append]
          exact ⟨hmail, List.pairwise_singleton _ _,
            fun a ha b hb => by
              rw [List.mem_singleton] at hb
              subst hb
              exact h1 a ha⟩
        · rw [List.pairwise_append]
          exact ⟨huser, List.pairwise_singleton _ _,
            fun a ha b hb => by
              rw [List.mem_singleton] at hb
              subst hb
              exact h2 a ha⟩
        · intro r hr
          rcases List.mem_append.mp hr with hin | hin
          · exact hpw r hin
          · rw [List.mem_singleton] at hin
            subst hin
            exact bcrypt.hash_ne_empty u.password

theorem storeInv_empty : StoreInv emptyStore := by
  refine ⟨?_, ?_, ?_⟩ <;> simp [emptyStore]

theorem foldl_applyOp_inv (ops : List Op) (s : Store) (h : StoreInv s) :
    StoreInv (ops.foldl applyOp s) := by
  induction ops generalizing s with
  | nil => exact h
  | cons o os ih => exact ih _ (applyOp_preserves s o h).1

/-- C7: every store reached from a fresh database by exposed operations
satisfies the data-model invariant — pairwise distinct emails, pairwise
distinct usernames, no empty digest — every exposed operation preserves
the invariant, and no exposed operation updates or deletes an existing
row: the rows of the store it was given survive unchanged, as a prefix
of the resulting rows. -/
theorem C7_invariant_holds_and_is_preserved (ops : List Op) (s : Store)
    (o : Op) (h : StoreInv s) :
    StoreInv (reachFrom ops) ∧
    StoreInv (applyOp s o) ∧
    ∃ t, (applyOp s o).rows = s.rows ++ t :=
  ⟨foldl_applyOp_inv ops emptyStore storeInv_empty,
   (applyOp_preserves s o h).1, (applyOp_preserves s o h).2⟩

/-- Witness for C7: a signup, a login and a listing applied after the
example signup, starting from alice's store. -/
theorem C7_witness :
    StoreInv (reachFrom [.signupOp ⟨"alice", "alice@x.com", "pw123"⟩,
                         .loginOp ⟨"alice@x.com", "pw123"⟩, .listOp]) ∧
    StoreInv (applyOp storeAlice (.signupOp ⟨"bob", "bob@x.com", "pw456"⟩)) ∧
    ∃ t, (applyOp storeAlice (.signupOp ⟨"bob", "bob@x.com", "pw456"⟩)).rows =
      storeAlice.rows ++ t :=
  C7_invariant_holds_and_is_preserved
    [.signupOp ⟨"alice", "alice@x.com", "pw123"⟩,
     .loginOp ⟨"alice@x.com", "pw123"⟩, .listOp]
    storeAlice (.signupOp ⟨"bob", "bob@x.com", "pw456"⟩)
    ⟨by simp [storeAlice], by simp [storeAlice], by decide⟩

theorem signup_fst_ok (s : Store) (r : UserCreate) (resp : UserResponse)
    (h : (signup s r).1 = Except.ok resp) :
    resp = ⟨s.nextId, r.username, r.email⟩ ∧
    (signup s r).2.rows =
      s.rows ++ [⟨s.nextId, r.username, r.email, bcrypt.hash r.password⟩] := by
  rw [signup_eq] at h ⊢
  by_cases h1 : ∃ x ∈ s.rows, x.email = r.email
  · rw [if_pos h1] at h
    exact absurd h (by simp)
  · rw [if_neg h1] at h ⊢
    by_cases h2 : ∃ x ∈ s.rows, x.username = r.username
    · rw [if_pos h2] at h
      exact absurd h (by simp)
    · rw [if_neg h2] at h ⊢
      simp only [Prod.fst] at h
      simp only [Except.ok.injEq] at h
      exact ⟨h.symm, rfl⟩

theorem runSignups_all_ok (rs : List UserCreate) (s : Store)
    (hok : ∀ o ∈ (runSignups s rs).2, ∃ resp, o = Except.ok resp) :
    ∃ resps : List UserResponse,
      (runSignups s rs).2 = resps.map Except.ok ∧
      (runSignups s rs).1.rows.map toResponse = s.rows.map toResponse ++ resps ∧
      resps.length = rs.length := by
  induction rs generalizing s with
  | nil => exact ⟨[], rfl, by simp [runSignups], rfl⟩
  | cons r rs ih =>
    obtain ⟨resp0, hresp0⟩ := hok ((signup s r).1) (by simp [runSignups])
    have htail : ∀ o ∈ (runSignups (signup s r).2 rs).2, ∃ resp, o = Except.ok resp := by
      intro o ho
      refine hok o ?_
      simp only [runSignups, List.mem_cons]
      exact Or.inr ho
    obtain ⟨resps, hmap, hrows, hlen⟩ := ih (signup s r).2 htail
    obtain ⟨hr0, hrows0⟩ := signup_fst_ok s r resp0 hresp0
    subst hr0
    refine ⟨⟨s.nextId, r.username, r.email⟩ :: resps, ?_, ?_, ?_⟩
    · simp only [runSignups, List.map_cons]
      rw [hresp0, hmap]
    · simp only [runSignups]
      rw [hrows, hrows0, List.map_append]
      simp [toResponse]
    · simp only [runSignups, List.length_cons, hlen]

/-- C6: starting from a fresh database, if a sequence of N signups all
succeed (and no other mutating operation runs — `login` and
`get_users` never write), then `get_users` on the resulting store
returns exactly the N signup responses, in order: each entry is the
public-fields response of one prior signup, and the `UserResponse`
shape carries no digest. -/
theorem C6_list_users_after_signups (rs : List UserCreate)
    (hok : ∀ o ∈ (runSignups emptyStore rs).2, ∃ resp, o = Except.ok resp) :
    ∃ resps : List UserResponse,
      (runSignups emptyStore rs).2 = resps.map Except.ok ∧
      get_users (runSignups emptyStore rs).1 = Except.ok resps ∧
      resps.length = rs.length := by
  obtain ⟨resps, hmap, hrows, hlen⟩ := runSignups_all_ok rs emptyStore hok
  refine ⟨resps, hmap, ?_, hlen⟩
  unfold get_users selectAll
  rw [hrows]
  simp [emptyStore]

/-- Witness for C6: two successful signups from the fresh store. -/
theorem C6_witness :
    ∃ resps : List UserResponse,
      (runSignups emptyStore
        [⟨"alice", "alice@x.com", "pw123"⟩, ⟨"bob", "bob@x.com", "pw456"⟩]).2 =
        resps.map Except.ok ∧
      get_users (runSignups emptyStore
        [⟨"alice", "alice@x.com", "pw123"⟩, ⟨"bob", "bob@x.com", "pw456"⟩]).1 =
        Except.ok resps ∧
      resps.length = 2 :=
  C6_list_users_after_signups
    [⟨"alice", "alice@x.com", "pw123"⟩, ⟨"bob", "bob@x.com", "pw456"⟩]
    (by
      have hlist : (runSignups emptyStore
          [⟨"alice", "alice@x.com", "pw123"⟩, ⟨"bob", "bob@x.com", "pw456"⟩]).2 =
          [Except.ok ⟨1, "alice", "alice@x.com"⟩, Except.ok ⟨2, "bob", "bob@x.com"⟩] := rfl
      rw [hlist]
      intro o ho
      rcases List.mem_cons.mp ho with h | ho2
      · exact ⟨⟨1, "alice", "alice@x.com"⟩, h⟩
      rcases List.mem_cons.mp ho2 with h | ho3
      · exact ⟨⟨2, "bob", "bob@x.com"⟩, h⟩
      · exact absurd ho3 (List.not_mem_nil o))

/-- C8 counterexample: two signups racing on the unused email
`a@x.com` against the fresh store, with both pre-checks reading the
initial store.  The first succeeds; the second fails — but with the
storage constraint violation wrapped as the generic 500 server error,
not with the duplicate-email error (the 400 "Email already registered"
response the spec maps `DuplicateEmail` to). -/
theorem C8_counterexample :
    (raceSignup .interleaved emptyStore ⟨"alice", "a@x.com", "p1"⟩
      ⟨"bob", "a@x.com", "p2"⟩).1 = Except.ok ⟨1, "alice", "a@x.com"⟩ ∧
    (raceSignup .interleaved emptyStore ⟨"alice", "a@x.com", "p1"⟩
      ⟨"bob", "a@x.com", "p2"⟩).2.1 =
      Except.error ⟨500,
        "Internal server error: IntegrityError: unique constraint failed: users.email"⟩ ∧
    (raceSignup .interleaved emptyStore ⟨"alice", "a@x.com", "p1"⟩
      ⟨"bob", "a@x.com", "p2"⟩).2.1 ≠
      Except.error ⟨400, "Email already registered"⟩ := by
  refine ⟨rfl, rfl, ?_⟩
  decide

/-- C8 amended: when two signups race on the same previously-unused
email (the first request's username also unused), then under either
interleaving — serial, or both pre-checks before either commit —
exactly one succeeds and the other fails, never both succeeding and
never both failing, the storage-layer uniqueness constraint deciding
the interleaved case; but the loser receives the generic 500 server
error (the constraint violation, or the handler's own swallowed 400,
wrapped as "Internal server error"), not the 400 duplicate-email
response. -/
theorem C8_race_exactly_one_success (sch : Schedule) (s : Store)
    (r1 r2 : UserCreate)
    (hemail : ∀ r ∈ s.rows, r.email ≠ r1.email)
    (heq : r2.email = r1.email)
    (husername : ∀ r ∈ s.rows, r.username ≠ r1.username) :
    (raceSignup sch s r1 r2).1 =
      Except.ok ⟨s.nextId, r1.username, r1.email⟩ ∧
    ∃ d, (raceSignup sch s r1 r2).2.1 = Except.error ⟨500, d⟩ := by
  have h1 : ¬ ∃ r ∈ s.rows, r.email = r1.email :=
    fun ⟨r, hr, he⟩ => hemail r hr he
  have h2 : ¬ ∃ r ∈ s.rows, r.username = r1.username :=
    fun ⟨r, hr, hu⟩ => husername r hr hu
  cases sch with
  | serial =>
    have e1 : signup s r1 =
        (Except.ok ⟨s.nextId, r1.username, r1.email⟩,
         { rows := s.rows ++
             [⟨s.nextId, r1.username, r1.email, bcrypt.hash r1.password⟩],
           nextId := s.nextId + 1 }) := by
      rw [signup_eq, if_neg h1, if_neg h2]
    have hex2 : ∃ r ∈ (Store.mk
        (s.rows ++ [⟨s.nextId, r1.username, r1.email, bcrypt.hash r1.password⟩])
        (s.nextId + 1)).rows, r.email = r2.email :=
      ⟨⟨s.nextId, r1.username, r1.email, bcrypt.hash r1.password⟩,
       by simp, heq.symm⟩
    have e2 : signup
        (Store.mk
          (s.rows ++ [⟨s.nextId, r1.username, r1.email, bcrypt.hash r1.password⟩])
          (s.nextId + 1)) r2 =
        (Except.error dupEmail500,
         Store.mk
          (s.rows ++ [⟨s.nextId, r1.username, r1.email, bcrypt.hash r1.password⟩])
          (s.nextId + 1)) := by
      rw [signup_eq, if_pos hex2]
      rfl
    constructor
    · simp only [raceSignup, e1]
    · refine ⟨"Internal server error: 400: Email already registered", ?_⟩
      simp only [raceSignup, e1, e2]
      rfl
  | interleaved =>
    have hf1 : selectByEmail s r1.email = none :=
      (selectByEmail_eq_none_iff s r1.email).mpr hemail
    have hf2 : selectByEmail s r2.email = none := by
      rw [heq]
      exact hf1
    have c1 : signupCommitPhase s r1 =
        (Except.ok ⟨s.nextId, r1.username, r1.email⟩,
         Store.mk
          (s.rows ++ [⟨s.nextId, r1.username, r1.email, bcrypt.hash r1.password⟩])
          (s.nextId + 1)) := by
      unfold signupCommitPhase commitInsert
      have ha : s.rows.any (fun r => r.email == r1.email) = false := by
        rw [List.any_eq_false]
        intro r hr
        simpa using hemail r hr
      have hb : s.rows.any (fun r => r.username == r1.username) = false := by
        rw [List.any_eq_false]
        intro r hr
        simpa using husername r hr
      rw [ha, hb]
      rfl
    have c2 : signupCommitPhase
        (Store.mk
          (s.rows ++ [⟨s.nextId, r1.username, r1.email, bcrypt.hash r1.password⟩])
          (s.nextId + 1)) r2 =
        (Except.error ⟨500,
          "Internal server error: IntegrityError: unique constraint failed: users.email"⟩,
         Store.mk
          (s.rows ++ [⟨s.nextId, r1.username, r1.email, bcrypt.hash r1.password⟩])
          (s.nextId + 1)) := by
      unfold signupCommitPhase commitInsert
      have ha : (s.rows ++
          [(⟨s.nextId, r1.username, r1.email, bcrypt.hash r1.password⟩ : UserRow)]).any
            (fun r => r.email == r2.email) = true := by
        rw [List.any_eq_true]
        refine ⟨⟨s.nextId, r1.username, r1.email, bcrypt.hash r1.password⟩, ?_, ?_⟩
        · simp
        · simp [heq]
      rw [ha]
      rfl
    constructor
    · simp only [raceSignup, hf1, hf2, c1]
    · refine ⟨"Internal server error: IntegrityError: unique constraint failed: users.email", ?_⟩
      simp only [raceSignup, hf1, hf2, c1, c2]

/-- Witness for C8 amended: the two racing example signups, serial
interleaving, against the fresh store. -/
theorem C8_witness :
    (raceSignup .serial emptyStore ⟨"alice", "a@x.com", "p1"⟩
      ⟨"bob", "a@x.com", "p2"⟩).1 =
      Except.ok ⟨emptyStore.nextId, "alice", "a@x.com"⟩ ∧
    ∃ d, (raceSignup .serial emptyStore ⟨"alice", "a@x.com", "p1"⟩
      ⟨"bob", "a@x.com", "p2"⟩).2.1 = Except.error ⟨500, d⟩ :=
  C8_race_exactly_one_success .serial emptyStore
    ⟨"alice", "a@x.com", "p1"⟩ ⟨"bob", "a@x.com", "p2"⟩
    (by simp [emptyStore]) rfl (by simp [emptyStore])
